import Mathlib

/-!
Verification of the mongoose-builder filter-stage compiler.

A shallow embedding of the `FilterStageBuilder` / `AggregationPipelineBuilder`
code (src/filter-stage-builder.ts and the helper classes under src/filters/).

Modelling choices, uniform across the file:

* JavaScript values stored in the filter dictionary are modelled by the
  inductive type `Value`; the distinguished value `vUndef` models
  `undefined`, which is also what reading an absent key returns.
* The filter dictionary (a plain JS object) is an association list
  `List (String × Value)` with unique keys (JS object keys are unique);
  `dget` models property read (absent → `undefined`), `ddel` models
  `delete obj[k]`.
* The builder's push-callback continuation style is modelled by state
  passing: every operation is a function `BuilderState → BuilderState`
  appending to `matchStages` exactly where the source calls
  `pushMatchStage`.
* The literal comparisons the source makes (`=== undefined`, `=== ''`,
  `!= null`, `=== true`, `=== 'true'`, …) are modelled by boolean
  predicates on `Value`.
* `dayjs.tz(value, tz)` parsing is modelled for ISO `YYYY-MM-DD` strings
  (the only format the specification exercises); timezone offsets are
  modelled as UTC (offset 0) — every theorem that inspects a concrete
  date pins the timezone to `"UTC"`, matching the source default.
  `dayjs(x).startOf('day')` / `endOf('day')` floor/ceil the timestamp to
  the enclosing UTC day.
* JS `Number(x)` coercion is modelled by `jsToNumber` on the integer
  fragment (`Number(null) = 0`, `Number(true) = 1`, decimal integer
  strings, `Number('') = 0`, otherwise `NaN`, modelled as `none`).
* Functions that depend on the current clock (`dayjs()`) take the
  current instant as an explicit argument.
-/

namespace MongooseBuilder

/-- A JavaScript runtime value as stored in a filter dictionary or emitted
inside a pipeline stage.  `vUndef` is `undefined`, `vDate` a `Date` by its
epoch-millisecond timestamp, `vObjectId` a mongoose `Types.ObjectId` by its
canonical string. -/
inductive Value where
  | vUndef : Value
  | vNull : Value
  | vBool : Bool → Value
  | vNum : Int → Value
  | vStr : String → Value
  | vDate : Int → Value
  | vObjectId : String → Value
  | vArr : List Value → Value
  | vObj : List (String × Value) → Value

/-- A filter dictionary: a plain JS object, keys unique. -/
abbrev Dict := List (String × Value)

/-- Property read `obj[k]`: the stored value, or `undefined` when absent. -/
def dget (d : Dict) (k : String) : Value :=
  match d.find? (fun p => p.1 == k) with
  | some p => p.2
  | none => Value.vUndef

/-- Models `k in obj`: whether the key is present (even if it stores `undefined`). -/
def dhas (d : Dict) (k : String) : Bool :=
  d.any (fun p => p.1 == k)

/-- Models `delete obj[k]`. -/
def ddel (d : Dict) (k : String) : Dict :=
  d.filter (fun p => p.1 != k)

/-- JS truthiness (`Boolean(x)` / `if (x)`). -/
def truthy : Value → Bool
  | .vUndef => false
  | .vNull => false
  | .vBool b => b
  | .vNum n => n != 0
  | .vStr s => s != ""
  | _ => true

/-- Models `x === undefined`. -/
def isUndef : Value → Bool
  | .vUndef => true
  | _ => false

/-- Models `x === null`. -/
def isNullV : Value → Bool
  | .vNull => true
  | _ => false

/-- Models `x === ''`. -/
def isEmptyStr : Value → Bool
  | .vStr s => s == ""
  | _ => false

/-- Models `x === true || x === 'true'` — the boolean-gate test used throughout. -/
def isGateTrue : Value → Bool
  | .vBool b => b
  | .vStr s => s == "true"
  | _ => false

/-- Models `x === false || x === 'false'` — the explicit-false test of
`addExistsMatch`. -/
def isGateFalse : Value → Bool
  | .vBool b => !b
  | .vStr s => s == "false"
  | _ => false

/-- Models `x != null && x !== ''` fails, i.e. the value is `undefined`, `null`, or
the empty string — the non-emission guard shared by most translators. -/
def isMissing (v : Value) : Bool :=
  isUndef v || isNullV v || isEmptyStr v

/-- Decimal digit run to a number; `none` when empty or non-digit. -/
def digitsToNat : List Char → Option Nat
  | [] => none
  | cs =>
    if cs.all Char.isDigit then
      some (cs.foldl (fun a c => a * 10 + (c.toNat - 48)) 0)
    else none

/-- An ASCII whitespace character, as trimmed by JS number coercion. -/
def isSpaceChar (c : Char) : Bool :=
  c == ' ' || c == '\t' || c == '\n' || c == '\r'

/-- Strip leading and trailing whitespace from a character list. -/
def trimChars (cs : List Char) : List Char :=
  ((cs.dropWhile isSpaceChar).reverse.dropWhile isSpaceChar).reverse

/-- JS `Number(s)` on a string, integer fragment: optional sign and decimal
digits; the empty (or all-whitespace) string coerces to `0`; anything else is
`NaN` (`none`). -/
def parseJsNumber (s : String) : Option Int :=
  match trimChars s.toList with
  | [] => some 0
  | '-' :: rest => (digitsToNat rest).map (fun n => -(n : Int))
  | '+' :: rest => (digitsToNat rest).map (fun n => (n : Int))
  | cs => (digitsToNat cs).map (fun n => (n : Int))

/-- JS `Number(x)` coercion; `none` models `NaN`.  `Number(null) = 0`,
`Number(true) = 1`, a `Date` coerces to its timestamp, a singleton array to
the number of its element, other arrays/objects to `NaN`. -/
def jsToNumber : Value → Option Int
  | .vUndef => none
  | .vNull => some 0
  | .vBool b => some (if b then 1 else 0)
  | .vNum n => some n
  | .vStr s => parseJsNumber s
  | .vDate ms => some ms
  | .vArr [] => some 0
  | .vArr [v] => jsToNumber v
  | .vArr _ => none
  | .vObj _ => none
  | .vObjectId _ => none

/-- JS `String(x)` on primitive values; stringification of arrays/objects is
abstracted (never inspected by a claim). -/
def jsToString : Value → String
  | .vStr s => s
  | .vNum n => toString n
  | .vBool true => "true"
  | .vBool false => "false"
  | .vNull => "null"
  | .vUndef => "undefined"
  | _ => ""

/-- Days-since-1970-01-01 of a civil date (Gregorian, proleptic); the
standard civil-from-days inverse algorithm, valid for year ≥ 1. -/
def daysFromCivil (y m d : Int) : Int :=
  let y := if m ≤ 2 then y - 1 else y
  let era := y / 400
  let yoe := y - era * 400
  let mp := (m + 9) % 12
  let doy := (153 * mp + 2) / 5 + d - 1
  let doe := yoe * 365 + yoe / 4 - yoe / 100 + doy
  era * 146097 + doe - 719468

/-- Days in a Gregorian month. -/
def daysInMonth (y m : Int) : Int :=
  if m = 2 then
    if y % 4 = 0 ∧ (y % 100 ≠ 0 ∨ y % 400 = 0) then 29 else 28
  else if m = 4 ∨ m = 6 ∨ m = 9 ∨ m = 11 then 30
  else 31

/-- Two decimal digits to a number. -/
def twoDigits (a b : Char) : Option Nat :=
  if a.isDigit && b.isDigit then some ((a.toNat - 48) * 10 + (b.toNat - 48))
  else none

/-- Parse an ISO `YYYY-MM-DD` date string to the epoch-millisecond timestamp
of midnight UTC of that day; `none` when malformed or out of range (as dayjs
marks such input invalid). -/
def parseYMD (s : String) : Option Int :=
  match s.toList with
  | [y1, y2, y3, y4, '-', mo1, mo2, '-', d1, d2] =>
    match twoDigits y1 y2, twoDigits y3 y4, twoDigits mo1 mo2, twoDigits d1 d2 with
    | some yh, some yl, some mo, some dd =>
      let y : Int := (yh * 100 + yl : Nat)
      if 1 ≤ y ∧ 1 ≤ (mo : Int) ∧ (mo : Int) ≤ 12 ∧ 1 ≤ (dd : Int) ∧
          (dd : Int) ≤ daysInMonth y mo then
        some (86400000 * daysFromCivil y mo dd)
      else none
    | _, _, _, _ => none
  | _ => none

/-- Models `dayjs.tz(value, timezoneStr)`: parse a raw value into an instant.
A string parses as an ISO date, a `Date` and a number stand for their
timestamp, everything else is an invalid date.  The timezone offset is
modelled as 0 (UTC); every theorem inspecting concrete instants pins the
timezone to `"UTC"`. -/
def tzParse (tz : String) (v : Value) : Option Int :=
  match tz, v with
  | _, .vStr s => parseYMD s
  | _, .vDate ms => some ms
  | _, .vNum n => some n
  | _, _ => none

/-- Models `dayjs(ms).startOf('day')` in UTC. -/
def startOfDay (ms : Int) : Int := (Int.fdiv ms 86400000) * 86400000

/-- Models `dayjs(ms).endOf('day')` in UTC. -/
def endOfDay (ms : Int) : Int := startOfDay ms + 86399999

/-- Parse a strict `HH:mm:ss` time string to (hour, minute, second). -/
def parseTimeHMS (s : String) : Option (Nat × Nat × Nat) :=
  match s.toList with
  | [h1, h2, ':', m1, m2, ':', s1, s2] =>
    match twoDigits h1 h2, twoDigits m1 m2, twoDigits s1 s2 with
    | some h, some m, some sec =>
      if h < 24 ∧ m < 60 ∧ sec < 60 then some (h, m, sec) else none
    | _, _, _ => none
  | _ => none

/-- Models `Types.ObjectId.isValid`: a 24-character hex string, a 12-character
string, or an already-constructed ObjectId. -/
def isValidObjectId (v : Value) : Bool :=
  match v with
  | .vObjectId _ => true
  | .vStr s =>
    (s.length == 24 && s.toList.all (fun c => c.isDigit ||
      (('a' ≤ c && c ≤ 'f') || ('A' ≤ c && c ≤ 'F')))) || s.length == 12
  | _ => false

/-- Models `new Types.ObjectId(v)` (only applied to validated values). -/
def toObjectId : Value → Value
  | .vStr s => .vObjectId s
  | .vObjectId s => .vObjectId s
  | _ => .vObjectId ""

/-- A regex metacharacter of the class `[.*+?^$\x7b\x7d()|[\]\\]` escaped by
`addRegexMatch`. -/
def isRegexMeta (c : Char) : Bool :=
  c == '.' || c == '*' || c == '+' || c == '?' || c == '^' || c == '$' ||
  c == '\x7b' || c == '\x7d' || c == '(' || c == ')' || c == '|' ||
  c == '[' || c == ']' || c == '\\'

/-- Models `String(raw).replace(/[.*+?^$\x7b\x7d()|[\]\\]/g, '\\$&')`. -/
def escapeRegex (s : String) : String :=
  String.mk (s.toList.flatMap (fun c => if isRegexMeta c then ['\\', c] else [c]))

/-- The state of one `FilterStageBuilder` instance: its filter dictionary,
the accumulated `matchStages` array, and the configured timezone (default
`"UTC"`). -/
structure BuilderState where
  filters : Dict
  matchStages : List Value
  tz : String

/-- Models `pushMatchStage`: append one stage to the accumulated array. -/
def pushMatchStage (st : BuilderState) (stage : Value) : BuilderState :=
  { st with matchStages := st.matchStages ++ [stage] }

/-- A `{ $match: inner }` stage object. -/
def matchStage (inner : Value) : Value := .vObj [("$match", inner)]

/-- A `{ $match: { field: v } }` stage object. -/
def fieldMatch (field : String) (v : Value) : Value :=
  matchStage (.vObj [(field, v)])

/-- A fresh builder: `new FilterStageBuilder(filters)`. -/
def mkBuilder (filters : Dict) : BuilderState :=
  { filters := filters, matchStages := [], tz := "UTC" }

/-- Models `FilterStageBuilder.setTimezone`. -/
def setTimezone (st : BuilderState) (tz : String) : BuilderState :=
  { st with tz := tz }

/-- Models `StringMatchHelper.addStringMatch` (called by
`FilterStageBuilder.addStringMatch`): equality match when the value is a
string; an optional static value bypasses the dictionary. -/
def addStringMatch (st : BuilderState) (field : String) (value : Option String) :
    BuilderState :=
  let filterValue := match value with
    | some v => Value.vStr v
    | none => dget st.filters field
  if isUndef filterValue || isEmptyStr filterValue then st
  else
    match filterValue with
    | .vStr s =>
      let st := pushMatchStage st (fieldMatch field (.vStr s))
      if value.isNone then { st with filters := ddel st.filters field } else st
    | _ => st

/-- Models `NumberMatchHelper.addNumberMatch` (called by
`FilterStageBuilder.addNumberMatch`): numeric equality match via `Number`
coercion; `NaN` is a silent no-op. -/
def addNumberMatch (st : BuilderState) (field : String) (value : Option Int) :
    BuilderState :=
  let filterValue := match value with
    | some v => Value.vNum v
    | none => dget st.filters field
  if isUndef filterValue || isEmptyStr filterValue then st
  else
    match jsToNumber filterValue with
    | none => st
    | some n =>
      let st := pushMatchStage st (fieldMatch field (.vNum n))
      if value.isNone then { st with filters := ddel st.filters field } else st

/-- Models `FilterStageBuilder.addBooleanValueMatch`: coerces `'true'`/`'false'`
strings (case-insensitive) and booleans; other strings are invalid; any
other type coerces by truthiness. -/
def addBooleanValueMatch (st : BuilderState) (field : String)
    (value : Option Bool) : BuilderState :=
  let filterValue := match value with
    | some b => Value.vBool b
    | none => dget st.filters field
  if isUndef filterValue || isEmptyStr filterValue then st
  else
    let boolValue : Option Bool := match filterValue with
      | .vStr s =>
        if s.toLower = "true" then some true
        else if s.toLower = "false" then some false
        else none
      | .vBool b => some b
      | v => some (truthy v)
    match boolValue with
    | none => st
    | some b =>
      let st := pushMatchStage st (fieldMatch field (.vBool b))
      if value.isNone then { st with filters := ddel st.filters field } else st

/-- Models `DateMatchHelper.addDateMatch`: date equality match; a `Date` passes
through, a string parses (with an optional explicit format — modelled for
the ISO date format) in the configured timezone; invalid parse or any other
type is a silent no-op. -/
def addDateMatch (st : BuilderState) (field : String) (value : Option Value)
    (format : Option String) : BuilderState :=
  let filterValue := match value with
    | some v => v
    | none => dget st.filters field
  if isUndef filterValue || isEmptyStr filterValue then st
  else
    match filterValue with
    | .vDate ms =>
      let st := pushMatchStage st (fieldMatch field (.vDate ms))
      if value.isNone then { st with filters := ddel st.filters field } else st
    | .vStr s =>
      let parsed := match format with
        | some f => if f = "YYYY-MM-DD" then parseYMD s else none
        | none => parseYMD s
      match parsed with
      | none => st
      | some ms =>
        let st := pushMatchStage st (fieldMatch field (.vDate ms))
        if value.isNone then { st with filters := ddel st.filters field } else st
    | _ => st

/-- Models `DateMatchHelper.addDateRangeMatch`: `-from` floored to start-of-day as
`$gte`, `-to` ceiled to end-of-day as `$lte`, one combined stage only when at
least one boundary is valid; both suffixed keys deleted unconditionally. -/
def addDateRangeMatch (st : BuilderState) (field : String) : BuilderState :=
  let fromV := dget st.filters (field ++ "-from")
  let toV := dget st.filters (field ++ "-to")
  let gteEntry : List (String × Value) :=
    if !(isMissing fromV) then
      match tzParse st.tz fromV with
      | some ms => [("$gte", Value.vDate (startOfDay ms))]
      | none => []
    else []
  let lteEntry : List (String × Value) :=
    if !(isMissing toV) then
      match tzParse st.tz toV with
      | some ms => [("$lte", Value.vDate (endOfDay ms))]
      | none => []
    else []
  let range := gteEntry ++ lteEntry
  let st :=
    if range.isEmpty then st
    else pushMatchStage st (fieldMatch field (.vObj range))
  { st with filters := ddel (ddel st.filters (field ++ "-from")) (field ++ "-to") }

/-- Models `DateMatchHelper.addGreaterThanDateMatch` (`field-gtDate`): end-of-day
`$gt`; the suffixed key is deleted unconditionally. -/
def addGreaterThanDateMatch (st : BuilderState) (field : String) : BuilderState :=
  let filterKey := field ++ "-gtDate"
  let rawValue := dget st.filters filterKey
  let st :=
    if !(isMissing rawValue) then
      match tzParse st.tz rawValue with
      | some ms =>
        pushMatchStage st (fieldMatch field (.vObj [("$gt", .vDate (endOfDay ms))]))
      | none => st
    else st
  { st with filters := ddel st.filters filterKey }

/-- Models `DateMatchHelper.addGreaterThanOrEqualDateMatch` (`field-gteDate`):
start-of-day `$gte`; the suffixed key is deleted unconditionally. -/
def addGreaterThanOrEqualDateMatch (st : BuilderState) (field : String) :
    BuilderState :=
  let filterKey := field ++ "-gteDate"
  let rawValue := dget st.filters filterKey
  let st :=
    if !(isMissing rawValue) then
      match tzParse st.tz rawValue with
      | some ms =>
        pushMatchStage st (fieldMatch field (.vObj [("$gte", .vDate (startOfDay ms))]))
      | none => st
    else st
  { st with filters := ddel st.filters filterKey }

/-- Models `DateMatchHelper.addLessThanDateMatch` (`field-ltDate`): start-of-day
`$lt`; the suffixed key is deleted unconditionally. -/
def addLessThanDateMatch (st : BuilderState) (field : String) : BuilderState :=
  let filterKey := field ++ "-ltDate"
  let rawValue := dget st.filters filterKey
  let st :=
    if !(isMissing rawValue) then
      match tzParse st.tz rawValue with
      | some ms =>
        pushMatchStage st (fieldMatch field (.vObj [("$lt", .vDate (startOfDay ms))]))
      | none => st
    else st
  { st with filters := ddel st.filters filterKey }

/-- Models `DateMatchHelper.addLessThanOrEqualDateMatch` (`field-lteDate`):
end-of-day `$lte`; the suffixed key is deleted unconditionally. -/
def addLessThanOrEqualDateMatch (st : BuilderState) (field : String) :
    BuilderState :=
  let filterKey := field ++ "-lteDate"
  let rawValue := dget st.filters filterKey
  let st :=
    if !(isMissing rawValue) then
      match tzParse st.tz rawValue with
      | some ms =>
        pushMatchStage st (fieldMatch field (.vObj [("$lte", .vDate (endOfDay ms))]))
      | none => st
    else st
  { st with filters := ddel st.filters filterKey }

/-- Models `FilterStageBuilder.addFieldExists`: without a `filterKey` argument the
`$exists` stage is always pushed; with one, only when the keyed value is
`true`/`'true'`.  The checked key (`filterKey`, or its fallback
`field-exists` — also when `filterKey` is the empty string, which is falsy)
is cleaned up when `filterKey` was given or the value was defined. -/
def addFieldExists (st : BuilderState) (field : String) (shouldExist : Bool)
    (filterKey : Option String) : BuilderState :=
  let keyToCheck := match filterKey with
    | some k => if k ≠ "" then k else field ++ "-exists"
    | none => field ++ "-exists"
  let filterValue := dget st.filters keyToCheck
  let st :=
    if filterKey.isNone || isGateTrue filterValue then
      pushMatchStage st (fieldMatch field (.vObj [("$exists", .vBool shouldExist)]))
    else st
  if !filterKey.isNone || !(isUndef filterValue) then
    { st with filters := ddel st.filters keyToCheck }
  else st

/-- Models `StringMatchHelper.addRegexMatch`: regex match on the
metacharacter-escaped raw value with configurable options (default `'i'`);
key deleted on emission. -/
def addRegexMatch (st : BuilderState) (field : String) (options : String) :
    BuilderState :=
  let raw := dget st.filters field
  if !(isMissing raw) then
    let escaped := escapeRegex (jsToString raw)
    let st := pushMatchStage st
      (fieldMatch field (.vObj [("$regex", .vStr escaped), ("$options", .vStr options)]))
    { st with filters := ddel st.filters field }
  else st

/-- Models `StringMatchHelper.addNotEqualMatch` (`field-not`): `$ne` match; key
deleted on emission. -/
def addNotEqualMatch (st : BuilderState) (field : String) : BuilderState :=
  let value := dget st.filters (field ++ "-not")
  if !(isMissing value) then
    let st := pushMatchStage st (fieldMatch field (.vObj [("$ne", value)]))
    { st with filters := ddel st.filters (field ++ "-not") }
  else st

/-- Models `ArrayMatchHelper.addInMatch` (`field-in`): `$in` on the value wrapped
into an array if not already one; static values bypass the dictionary, and
the key is deleted only when no static values were given. -/
def addInMatch (st : BuilderState) (field : String)
    (staticValues : Option (List Value)) : BuilderState :=
  let filterKey := field ++ "-in"
  let value := match staticValues with
    | some l => Value.vArr l
    | none => dget st.filters filterKey
  if !(isUndef value) && !(isNullV value) then
    let arr := match value with
      | .vArr l => l
      | v => [v]
    let st := pushMatchStage st (fieldMatch field (.vObj [("$in", .vArr arr)]))
    if staticValues.isNone then { st with filters := ddel st.filters filterKey }
    else st
  else st

/-- Models `ArrayMatchHelper.addInMatchWithObjectIds` (`field-in`): like
`addInMatch` but keeps only valid ObjectIds, emitting only when at least one
remains; the key (when read) is deleted whether or not emission occurred. -/
def addInMatchWithObjectIds (st : BuilderState) (field : String)
    (staticValues : Option (List Value)) : BuilderState :=
  let filterKey := field ++ "-in"
  let value := match staticValues with
    | some l => Value.vArr l
    | none => dget st.filters filterKey
  if !(isUndef value) && !(isNullV value) then
    let arr := match value with
      | .vArr l => l
      | v => [v]
    let validIds := arr.filter isValidObjectId
    let st :=
      if validIds.length > 0 then
        pushMatchStage st
          (fieldMatch field (.vObj [("$in", .vArr (validIds.map toObjectId))]))
      else st
    if staticValues.isNone then { st with filters := ddel st.filters filterKey }
    else st
  else st

/-- Models `ArrayMatchHelper.addObjectIdMatch`: single ObjectId equality match when
the bare value is a valid ObjectId; key deleted on emission. -/
def addObjectIdMatch (st : BuilderState) (field : String) : BuilderState :=
  let value := dget st.filters field
  if !(isMissing value) && isValidObjectId value then
    let st := pushMatchStage st (fieldMatch field (toObjectId value))
    { st with filters := ddel st.filters field }
  else st

/-- Models `ArrayMatchHelper.addObjectIdsMatch`: `$in` over the valid ObjectIds of
the bare value (wrapped into an array if needed); emits and deletes only when
at least one valid id remains. -/
def addObjectIdsMatch (st : BuilderState) (field : String) : BuilderState :=
  let value := dget st.filters field
  if !(isUndef value) && !(isNullV value) then
    let arr := match value with
      | .vArr l => l
      | v => [v]
    let validIds := arr.filter isValidObjectId
    if validIds.length > 0 then
      let st := pushMatchStage st
        (fieldMatch field (.vObj [("$in", .vArr (validIds.map toObjectId))]))
      { st with filters := ddel st.filters field }
    else st
  else st

/-- Models `ArrayMatchHelper.addNotInMatch` (`field-nin`): `$nin` on the value
wrapped into an array if not already one; the suffixed key is deleted
unconditionally — even when static values were supplied. -/
def addNotInMatch (st : BuilderState) (field : String)
    (staticValues : Option (List Value)) : BuilderState :=
  let value := match staticValues with
    | some l => Value.vArr l
    | none => dget st.filters (field ++ "-nin")
  let st :=
    if !(isUndef value) && !(isNullV value) then
      let arr := match value with
        | .vArr l => l
        | v => [v]
      pushMatchStage st (fieldMatch field (.vObj [("$nin", .vArr arr)]))
    else st
  { st with filters := ddel st.filters (field ++ "-nin") }

/-- Models `ArrayMatchHelper.addArrayNotEmptyMatch` (`field-nt-empty`): gated on
`true`/`'true'`; requires the field to exist with non-zero size; key deleted
on emission. -/
def addArrayNotEmptyMatch (st : BuilderState) (field : String) : BuilderState :=
  let value := dget st.filters (field ++ "-nt-empty")
  if isGateTrue value then
    let st := pushMatchStage st
      (fieldMatch field (.vObj
        [("$exists", .vBool true), ("$not", .vObj [("$size", .vNum 0)])]))
    { st with filters := ddel st.filters (field ++ "-nt-empty") }
  else st

/-- Models `MiscMatchHelper.addNotDeleted`: unconditionally pushes
`{ deletedAt: null }` and deletes the `deletedAt` key. -/
def addNotDeleted (st : BuilderState) : BuilderState :=
  let st := pushMatchStage st (fieldMatch "deletedAt" .vNull)
  { st with filters := ddel st.filters "deletedAt" }

/-- Models `MiscMatchHelper.addNullMatch` (`field-isnull`): gated on
`true`/`'true'`; key deleted on emission. -/
def addNullMatch (st : BuilderState) (field : String) : BuilderState :=
  let filterKey := field ++ "-isnull"
  let value := dget st.filters filterKey
  if isGateTrue value then
    let st := pushMatchStage st (fieldMatch field .vNull)
    { st with filters := ddel st.filters filterKey }
  else st

/-- Models `MiscMatchHelper.addNotNullMatch` (`field-notnull`): gated on
`true`/`'true'`; key deleted on emission. -/
def addNotNullMatch (st : BuilderState) (field : String) : BuilderState :=
  let filterKey := field ++ "-notnull"
  let value := dget st.filters filterKey
  if isGateTrue value then
    let st := pushMatchStage st (fieldMatch field (.vObj [("$ne", .vNull)]))
    { st with filters := ddel st.filters filterKey }
  else st

/-- Models `MiscMatchHelper.addBooleanMatch` (`field-true` / `field-false`): only
the first truthy gate is honored; the matching key deleted on emission. -/
def addBooleanMatch (st : BuilderState) (field : String) : BuilderState :=
  let trueFilterKey := field ++ "-true"
  let falseFilterKey := field ++ "-false"
  let trueFlag := dget st.filters trueFilterKey
  let falseFlag := dget st.filters falseFilterKey
  if isGateTrue trueFlag then
    let st := pushMatchStage st (fieldMatch field (.vBool true))
    { st with filters := ddel st.filters trueFilterKey }
  else if isGateTrue falseFlag then
    let st := pushMatchStage st (fieldMatch field (.vBool false))
    { st with filters := ddel st.filters falseFilterKey }
  else st

/-- Models `MiscMatchHelper.addExistsMatch` (`field-exists`): `true`/`'true'` emits
`$exists: true`, `false`/`'false'` emits `$exists: false`; key deleted on
emission. -/
def addExistsMatch (st : BuilderState) (field : String) : BuilderState :=
  let filterKey := field ++ "-exists"
  let existsFlag := dget st.filters filterKey
  if isGateTrue existsFlag then
    let st := pushMatchStage st (fieldMatch field (.vObj [("$exists", .vBool true)]))
    { st with filters := ddel st.filters filterKey }
  else if isGateFalse existsFlag then
    let st := pushMatchStage st (fieldMatch field (.vObj [("$exists", .vBool false)]))
    { st with filters := ddel st.filters filterKey }
  else st

/-- Models `CompoundMatchHelper.addOrMatch` (key `or`): requires a non-empty array;
wraps it as `$or`; key deleted only on emission. -/
def addOrMatch (st : BuilderState) : BuilderState :=
  let orConditions := dget st.filters "or"
  match orConditions with
  | .vArr (c :: cs) =>
    let st := pushMatchStage st (matchStage (.vObj [("$or", .vArr (c :: cs))]))
    { st with filters := ddel st.filters "or" }
  | _ => st

/-- Models `CompoundMatchHelper.addOrMatchWithPrefix` (key `pfx-or`, where `pfx`
names the prefix argument): requires a non-empty array; wraps it as `$or`;
key deleted only on emission. -/
def addOrMatchPrefixed (st : BuilderState) (pfx : String) : BuilderState :=
  let filterKey := pfx ++ "-or"
  let orConditions := dget st.filters filterKey
  match orConditions with
  | .vArr (c :: cs) =>
    let st := pushMatchStage st (matchStage (.vObj [("$or", .vArr (c :: cs))]))
    { st with filters := ddel st.filters filterKey }
  | _ => st

/-- Models `CompoundMatchHelper.addAndMatch` (key `and`): requires a non-empty
array; wraps it as `$and`; key deleted only on emission. -/
def addAndMatch (st : BuilderState) : BuilderState :=
  let andConditions := dget st.filters "and"
  match andConditions with
  | .vArr (c :: cs) =>
    let st := pushMatchStage st (matchStage (.vObj [("$and", .vArr (c :: cs))]))
    { st with filters := ddel st.filters "and" }
  | _ => st

/-- Models `DateMatchHelper.fallWithinDateRange` (gate key `range-within-date`):
emits the `$expr` stage comparing the field pair against the start of the
current day only when the gate is `true`/`'true'`, and only then deletes the
gate key.  The current instant is an explicit argument. -/
def fallWithinDateRange (st : BuilderState) (startField endField : String)
    (nowMs : Int) : BuilderState :=
  let flag := dget st.filters "range-within-date"
  if !(isGateTrue flag) then st
  else
    let now := startOfDay nowMs
    let st := pushMatchStage st (matchStage (.vObj [("$expr", .vObj [("$and", .vArr
      [ .vObj [("$lte", .vArr [.vStr startField, .vDate now])],
        .vObj [("$gte", .vArr [.vStr endField, .vDate now])] ])])]))
    { st with filters := ddel st.filters "range-within-date" }

/-- Whether the optional explicit time argument of `fallWithinTimeRange` is
usable: absent (current time is used) or a parsable `HH:mm:ss` string. -/
def timeArgValid : Option String → Bool
  | none => true
  | some s => (parseTimeHMS s).isSome

/-- Millisecond-of-day of a parsed `HH:mm:ss` triple. -/
def timeTripleMs (t : Nat × Nat × Nat) : Int :=
  (t.1 * 3600000 + t.2.1 * 60000 + t.2.2 * 1000 : Nat)

/-- Models `DateMatchHelper.fallWithinTimeRange` (gate key `range-within-time`):
emits the `$expr` stage comparing the field pair against the given or
current millisecond-of-day only when the gate is `true`/`'true'` and the
time argument is valid, and only then deletes the gate key.  The current
millisecond-of-day is an explicit argument. -/
def fallWithinTimeRange (st : BuilderState) (startField endField : String)
    (timeStr : Option String) (nowTimeMs : Int) : BuilderState :=
  let flag := dget st.filters "range-within-time"
  if !(isGateTrue flag) then st
  else
    let timeMs : Option Int := match timeStr with
      | some s => (parseTimeHMS s).map timeTripleMs
      | none => some nowTimeMs
    match timeMs with
    | none => st
    | some t =>
      let st := pushMatchStage st (matchStage (.vObj [("$expr", .vObj [("$and", .vArr
        [ .vObj [("$lte", .vArr
            [ .vObj [("$add", .vArr [.vNum 0, .vObj [("$ifNull", .vArr [.vStr startField, .vNum 0])]])],
              .vNum t ])],
          .vObj [("$gte", .vArr
            [ .vObj [("$add", .vArr [.vNum 0, .vObj [("$ifNull", .vArr [.vStr endField, .vNum 0])]])],
              .vNum t ])] ])])]))
      { st with filters := ddel st.filters "range-within-time" }

/-- Models `NumberMatchHelper.addRangeMatch` (`field-from` / `field-to`): raw
boundary values as `$gte`/`$lte`, one combined stage only when at least one
boundary is present; both suffixed keys deleted unconditionally. -/
def addRangeMatch (st : BuilderState) (field : String) : BuilderState :=
  let fromV := dget st.filters (field ++ "-from")
  let toV := dget st.filters (field ++ "-to")
  let gteEntry : List (String × Value) :=
    if !(isMissing fromV) then [("$gte", fromV)] else []
  let lteEntry : List (String × Value) :=
    if !(isMissing toV) then [("$lte", toV)] else []
  let range := gteEntry ++ lteEntry
  let st :=
    if range.isEmpty then st
    else pushMatchStage st (fieldMatch field (.vObj range))
  { st with filters := ddel (ddel st.filters (field ++ "-from")) (field ++ "-to") }

/-- Models `DateMatchHelper.addTimeRangeMatch` (`field1-time-from` /
`field2-time-to`): millisecond-of-day `$expr` conditions, each deleting its
key when its time string parses; one stage when at least one condition was
built. -/
def addTimeRangeMatch (st : BuilderState) (field1 field2 : String) : BuilderState :=
  let fromFilterKey := field1 ++ "-time-from"
  let toFilterKey := field2 ++ "-time-to"
  let fromTimeStr := dget st.filters fromFilterKey
  let toTimeStr := dget st.filters toFilterKey
  let fromParsed : Option Int :=
    if !(isMissing fromTimeStr) then
      match fromTimeStr with
      | .vStr s => (parseTimeHMS s).map timeTripleMs
      | _ => none
    else none
  let toParsed : Option Int :=
    if !(isMissing toTimeStr) then
      match toTimeStr with
      | .vStr s => (parseTimeHMS s).map (fun t => timeTripleMs t + 999)
      | _ => none
    else none
  let fromConds : List Value := match fromParsed with
    | some ms => [.vObj [("$gte", .vArr [.vObj [("$ifNull", .vArr [.vStr field1, .vNum 0])], .vNum ms])]]
    | none => []
  let toConds : List Value := match toParsed with
    | some ms => [.vObj [("$lte", .vArr [.vObj [("$ifNull", .vArr [.vStr field2, .vNum 0])], .vNum ms])]]
    | none => []
  let exprConditions := fromConds ++ toConds
  let filters := if fromParsed.isSome then ddel st.filters fromFilterKey else st.filters
  let filters := if toParsed.isSome then ddel filters toFilterKey else filters
  let st := { st with filters := filters }
  if exprConditions.isEmpty then st
  else pushMatchStage st (matchStage (.vObj [("$expr", .vObj [("$and", .vArr exprConditions)])]))

/-- Models `DateMatchHelper.addFieldsDateRangeMatch` (gate key `range-within-date`,
boundaries `startField-from` / `endField-to`): when gated, builds day-bounded
`$expr` conditions, each deleting its boundary key when valid; the gate key
is deleted whenever the gate was truthy. -/
def addFieldsDateRangeMatch (st : BuilderState) (startField endField : String) :
    BuilderState :=
  let mainFilterKey := "range-within-date"
  let fromFilterKey := startField ++ "-from"
  let toFilterKey := endField ++ "-to"
  let dateFlag := dget st.filters mainFilterKey
  if !(isGateTrue dateFlag) then st
  else
    let fromV := dget st.filters fromFilterKey
    let toV := dget st.filters toFilterKey
    let fromParsed : Option Int :=
      if !(isMissing fromV) then tzParse st.tz fromV else none
    let toParsed : Option Int :=
      if !(isMissing toV) then tzParse st.tz toV else none
    let fromConds : List Value := match fromParsed with
      | some ms => [.vObj [("$gte", .vArr [.vStr startField, .vDate (startOfDay ms)])]]
      | none => []
    let toConds : List Value := match toParsed with
      | some ms => [.vObj [("$lte", .vArr [.vStr endField, .vDate (endOfDay ms)])]]
      | none => []
    let exprConditions := fromConds ++ toConds
    let filters := if fromParsed.isSome then ddel st.filters fromFilterKey else st.filters
    let filters := if toParsed.isSome then ddel filters toFilterKey else filters
    let st := { st with filters := filters }
    let st :=
      if exprConditions.isEmpty then st
      else pushMatchStage st (matchStage (.vObj [("$expr", .vObj [("$and", .vArr exprConditions)])]))
    { st with filters := ddel st.filters mainFilterKey }

/-- Models `LookupHelper.addLookupFromOtherCollection` (via
`FilterStageBuilder.addLookupFromOtherCollection`): pushes one `$lookup`
stage when the collection name is non-empty (the push callback is always
provided by the builder). -/
def addLookupFromOtherCollection (st : BuilderState) (collection : String)
    (matchStages : Value) (localField foreignField asName : String)
    (uniqueForeignId : Option String) : BuilderState :=
  if collection ≠ "" then
    pushMatchStage st (.vObj [("$lookup", .vObj
      [ ("from", .vStr collection),
        ("localField", .vStr localField),
        ("foreignField", .vStr foreignField),
        ("let", .vObj [("foreign_id", .vStr
          (match uniqueForeignId with
           | some s => if s ≠ "" then s else "$_id"
           | none => "$_id"))]),
        ("as", .vStr asName),
        ("pipeline", matchStages) ])])
  else st

/-- Whether `build()`'s default sweep emits a bare equality stage for a key:
value defined, non-null, non-empty, the key contains no `-`, and is not a
reserved bare key. -/
def buildSweepCond (key : String) (v : Value) : Bool :=
  !(isUndef v) && !(isNullV v) && !(isEmptyStr v) && !(key.contains '-') &&
  key != "or" && key != "and" && key != "range-within-date" &&
  key != "range-within-time" && key != "notnull" && key != "exists"

/-- The loop body of `build()`: `for (const key in this.filters)` visits each
key once, pushes a bare equality match when `buildSweepCond` holds, and
deletes the key unconditionally (keys of a JS object are unique, so the
dictionary is drained). -/
def sweepList : List (String × Value) → List Value → List Value
  | [], acc => acc
  | (k, v) :: rest, acc =>
    sweepList rest (if buildSweepCond k v then acc ++ [fieldMatch k v] else acc)

/-- Models `FilterStageBuilder.build()`: performs the default sweep over the
remaining filters (emptying the dictionary) and returns the accumulated
stage array (held in `matchStages` of the resulting state). -/
def build (st : BuilderState) : BuilderState :=
  { st with filters := [], matchStages := sweepList st.filters st.matchStages }

/-- One explicit rule call on the builder, for quantifying over arbitrary
call sequences. -/
inductive Op where
  | opSetTimezone (tz : String)
  | opStringMatch (field : String) (value : Option String)
  | opNumberMatch (field : String) (value : Option Int)
  | opBooleanValueMatch (field : String) (value : Option Bool)
  | opDateMatch (field : String) (value : Option Value) (format : Option String)
  | opDateRangeMatch (field : String)
  | opGreaterThanDateMatch (field : String)
  | opGreaterThanOrEqualDateMatch (field : String)
  | opLessThanDateMatch (field : String)
  | opLessThanOrEqualDateMatch (field : String)
  | opFieldExists (field : String) (shouldExist : Bool) (filterKey : Option String)
  | opRegexMatch (field : String) (options : String)
  | opInMatch (field : String) (staticValues : Option (List Value))
  | opInMatchWithObjectIds (field : String) (staticValues : Option (List Value))
  | opObjectIdMatch (field : String)
  | opObjectIdsMatch (field : String)
  | opNotInMatch (field : String) (staticValues : Option (List Value))
  | opArrayNotEmptyMatch (field : String)
  | opNotDeleted
  | opNullMatch (field : String)
  | opNotNullMatch (field : String)
  | opBooleanMatch (field : String)
  | opExistsMatch (field : String)
  | opNotEqualMatch (field : String)
  | opRangeMatch (field : String)
  | opFallWithinDateRange (startField endField : String) (nowMs : Int)
  | opFallWithinTimeRange (startField endField : String) (timeStr : Option String) (nowTimeMs : Int)
  | opOrMatch
  | opOrMatchPrefixed (pfx : String)
  | opAndMatch
  | opTimeRangeMatch (field1 field2 : String)
  | opFieldsDateRangeMatch (startField endField : String)
  | opLookup (collection : String) (matchStages : Value)
      (localField foreignField asName : String) (uniqueForeignId : Option String)

/-- Apply one rule call to the builder state. -/
def applyOp (st : BuilderState) : Op → BuilderState
  | .opSetTimezone tz => setTimezone st tz
  | .opStringMatch f v => addStringMatch st f v
  | .opNumberMatch f v => addNumberMatch st f v
  | .opBooleanValueMatch f v => addBooleanValueMatch st f v
  | .opDateMatch f v fmt => addDateMatch st f v fmt
  | .opDateRangeMatch f => addDateRangeMatch st f
  | .opGreaterThanDateMatch f => addGreaterThanDateMatch st f
  | .opGreaterThanOrEqualDateMatch f => addGreaterThanOrEqualDateMatch st f
  | .opLessThanDateMatch f => addLessThanDateMatch st f
  | .opLessThanOrEqualDateMatch f => addLessThanOrEqualDateMatch st f
  | .opFieldExists f b fk => addFieldExists st f b fk
  | .opRegexMatch f o => addRegexMatch st f o
  | .opInMatch f sv => addInMatch st f sv
  | .opInMatchWithObjectIds f sv => addInMatchWithObjectIds st f sv
  | .opObjectIdMatch f => addObjectIdMatch st f
  | .opObjectIdsMatch f => addObjectIdsMatch st f
  | .opNotInMatch f sv => addNotInMatch st f sv
  | .opArrayNotEmptyMatch f => addArrayNotEmptyMatch st f
  | .opNotDeleted => addNotDeleted st
  | .opNullMatch f => addNullMatch st f
  | .opNotNullMatch f => addNotNullMatch st f
  | .opBooleanMatch f => addBooleanMatch st f
  | .opExistsMatch f => addExistsMatch st f
  | .opNotEqualMatch f => addNotEqualMatch st f
  | .opRangeMatch f => addRangeMatch st f
  | .opFallWithinDateRange s e n => fallWithinDateRange st s e n
  | .opFallWithinTimeRange s e t n => fallWithinTimeRange st s e t n
  | .opOrMatch => addOrMatch st
  | .opOrMatchPrefixed p => addOrMatchPrefixed st p
  | .opAndMatch => addAndMatch st
  | .opTimeRangeMatch f1 f2 => addTimeRangeMatch st f1 f2
  | .opFieldsDateRangeMatch s e => addFieldsDateRangeMatch st s e
  | .opLookup c m lf ff a u => addLookupFromOtherCollection st c m lf ff a u

/-- Apply a sequence of rule calls left to right (the fluent chain). -/
def runOps (st : BuilderState) (ops : List Op) : BuilderState :=
  ops.foldl applyOp st

/-- A stage object with exactly one top-level key, `$match` or `$lookup`. -/
def isMatchOrLookupB : Value → Bool
  | .vObj [(k, _)] => k == "$match" || k == "$lookup"
  | _ => false

/-- Whether a rule call resolves its value from the filter dictionary
(rather than supplying nothing value-gated, or bypassing the dictionary with
an explicit override). -/
def readsValueFromDict : Op → Bool
  | .opSetTimezone _ => false
  | .opNotDeleted => false
  | .opLookup _ _ _ _ _ _ => false
  | .opFieldExists _ _ fk => fk.isSome
  | .opStringMatch _ v => v.isNone
  | .opNumberMatch _ v => v.isNone
  | .opBooleanValueMatch _ v => v.isNone
  | .opDateMatch _ v _ => v.isNone
  | .opInMatch _ sv => sv.isNone
  | .opInMatchWithObjectIds _ sv => sv.isNone
  | .opNotInMatch _ sv => sv.isNone
  | _ => true

/-- The dictionary keys a rule call reads its value(s) from (empty for calls
that read nothing from the dictionary: non-reading calls and calls given an
explicit override). -/
def opReadKeys : Op → List String
  | .opSetTimezone _ => []
  | .opNotDeleted => []
  | .opLookup _ _ _ _ _ _ => []
  | .opStringMatch f v => if v.isNone then [f] else []
  | .opNumberMatch f v => if v.isNone then [f] else []
  | .opBooleanValueMatch f v => if v.isNone then [f] else []
  | .opDateMatch f v _ => if v.isNone then [f] else []
  | .opDateRangeMatch f => [f ++ "-from", f ++ "-to"]
  | .opGreaterThanDateMatch f => [f ++ "-gtDate"]
  | .opGreaterThanOrEqualDateMatch f => [f ++ "-gteDate"]
  | .opLessThanDateMatch f => [f ++ "-ltDate"]
  | .opLessThanOrEqualDateMatch f => [f ++ "-lteDate"]
  | .opFieldExists f _ (some k) => [if k ≠ "" then k else f ++ "-exists"]
  | .opFieldExists _ _ none => []
  | .opRegexMatch f _ => [f]
  | .opInMatch f sv => if sv.isNone then [f ++ "-in"] else []
  | .opInMatchWithObjectIds f sv => if sv.isNone then [f ++ "-in"] else []
  | .opObjectIdMatch f => [f]
  | .opObjectIdsMatch f => [f]
  | .opNotInMatch f sv => if sv.isNone then [f ++ "-nin"] else []
  | .opArrayNotEmptyMatch f => [f ++ "-nt-empty"]
  | .opNullMatch f => [f ++ "-isnull"]
  | .opNotNullMatch f => [f ++ "-notnull"]
  | .opBooleanMatch f => [f ++ "-true", f ++ "-false"]
  | .opExistsMatch f => [f ++ "-exists"]
  | .opNotEqualMatch f => [f ++ "-not"]
  | .opRangeMatch f => [f ++ "-from", f ++ "-to"]
  | .opFallWithinDateRange _ _ _ => ["range-within-date"]
  | .opFallWithinTimeRange _ _ _ _ => ["range-within-time"]
  | .opOrMatch => ["or"]
  | .opOrMatchPrefixed p => [p ++ "-or"]
  | .opAndMatch => ["and"]
  | .opTimeRangeMatch f1 f2 => [f1 ++ "-time-from", f2 ++ "-time-to"]
  | .opFieldsDateRangeMatch s e => ["range-within-date", s ++ "-from", e ++ "-to"]

/-! Section: General lemmas about the dictionary and the emitter -/

theorem dhas_ddel_self (d : Dict) (k : String) : dhas (ddel d k) k = false := by
  simp only [dhas, ddel]
  induction d with
  | nil => rfl
  | cons p rest ih =>
    rw [List.filter_cons]
    cases h : p.1 == k with
    | true => simp [bne, h, ih]
    | false => simp [bne, h, ih]

theorem sweepList_eq (l : List (String × Value)) (acc : List Value) :
    sweepList l acc = acc ++
      (l.filter (fun kv => buildSweepCond kv.1 kv.2)).map
        (fun kv => fieldMatch kv.1 kv.2) := by
  induction l generalizing acc with
  | nil => simp [sweepList]
  | cons kv rest ih =>
    by_cases h : buildSweepCond kv.1 kv.2
    · simp [sweepList, h, ih]
    · simp [sweepList, h, ih]

/-! Section: C1, C3, C8, C10 -/

/-- C1: `build()` performs the default sweep — for each remaining key whose
value is defined, non-null and non-empty, whose name contains no `-`, and
which is not one of the reserved bare keys (`or`, `and`,
`range-within-date`, `range-within-time`, `notnull`, `exists`), one bare
equality match stage is appended, in dictionary order; every remaining key
(including suffixed keys no rule consumed, which yield no stage) is deleted,
leaving the dictionary empty. -/
theorem build_default_sweep (st : BuilderState) :
    (build st).filters = [] ∧
    (build st).matchStages = st.matchStages ++
      (st.filters.filter (fun kv => buildSweepCond kv.1 kv.2)).map
        (fun kv => fieldMatch kv.1 kv.2) :=
  ⟨rfl, sweepList_eq st.filters st.matchStages⟩

/-- C3: with timezone `UTC` and filters `createdAt-from = "2023-05-01"`,
`createdAt-to = "2023-05-07"`, `addDateRangeMatch("createdAt")` emits exactly
one match stage `{ createdAt: { $gte: 2023-05-01T00:00:00.000Z, $lte:
2023-05-07T23:59:59.999Z } }` (start-of-day floor / end-of-day ceiling) and
removes both suffixed keys. -/
theorem addDateRangeMatch_utc_example :
    addDateRangeMatch (mkBuilder [("createdAt-from", .vStr "2023-05-01"),
        ("createdAt-to", .vStr "2023-05-07")]) "createdAt" =
      { filters := [],
        matchStages := [fieldMatch "createdAt" (.vObj
          [("$gte", .vDate 1682899200000), ("$lte", .vDate 1683503999999)])],
        tz := "UTC" } := rfl

/-- C8: the first `build()` drains the dictionary, so building again returns
the same accumulated stage sequence with no additional stages (the whole
state is unchanged). -/
theorem build_idempotent (st : BuilderState) :
    (build st).filters = [] ∧ build (build st) = build st :=
  ⟨rfl, rfl⟩

/-- C10: `addFieldExists(field, shouldExist)` without a `filterKey` argument
always appends exactly one `{ field: { $exists: shouldExist } }` match stage
— whatever the dictionary holds, including `field-exists` mapped to
`"false"` — and deletes the `field-exists` key whenever it is present (holds
a defined value). -/
theorem addFieldExists_no_filterKey (st : BuilderState) (field : String)
    (shouldExist : Bool) :
    (addFieldExists st field shouldExist none).matchStages =
      st.matchStages ++ [fieldMatch field (.vObj [("$exists", .vBool shouldExist)])] ∧
    (addFieldExists st field shouldExist none).filters =
      (if isUndef (dget st.filters (field ++ "-exists")) then st.filters
       else ddel st.filters (field ++ "-exists")) := by
  unfold addFieldExists
  simp only [Option.isNone_none, Bool.true_or, if_true, Bool.not_true, Bool.false_or]
  constructor
  · by_cases h : isUndef (dget st.filters (field ++ "-exists")) <;>
      simp [h, pushMatchStage]
  · by_cases h : isUndef (dget st.filters (field ++ "-exists")) <;>
      simp [h, pushMatchStage]

/-! Section: C2: key consumption of the bare string / bare number / or matches -/

/-- C2 (counterexample): the bare number match reading the unparsable value
`"abc"` from the dictionary emits no stage and leaves the `age` key present —
refuting that the source key is always deleted when read. -/
theorem consume_on_failure_counterexample :
    (addNumberMatch (mkBuilder [("age", .vStr "abc")]) "age" none).matchStages = [] ∧
    dhas (addNumberMatch (mkBuilder [("age", .vStr "abc")]) "age" none).filters
      "age" = true :=
  ⟨rfl, rfl⟩

/-- C2 (amended): for the bare string match, the bare number match and the
compound or match, when the value is read from the dictionary the source key
is deleted exactly when a stage was emitted; in particular a non-text value,
an unparsable number, or an empty `or` array emits nothing and leaves the
key in place. -/
theorem consume_iff_emit (st : BuilderState) (field : String) :
    (dhas (addStringMatch st field none).filters field =
      (dhas st.filters field &&
        ((addStringMatch st field none).matchStages.length == st.matchStages.length))) ∧
    (dhas (addNumberMatch st field none).filters field =
      (dhas st.filters field &&
        ((addNumberMatch st field none).matchStages.length == st.matchStages.length))) ∧
    (dhas (addOrMatch st).filters "or" =
      (dhas st.filters "or" &&
        ((addOrMatch st).matchStages.length == st.matchStages.length))) := by
  refine ⟨?_, ?_, ?_⟩
  · unfold addStringMatch
    cases hv : dget st.filters field
    case vStr s =>
      by_cases hs : s = "" <;>
        simp [hv, hs, pushMatchStage, dhas_ddel_self, isUndef, isEmptyStr]
    all_goals simp [hv, pushMatchStage, dhas_ddel_self]
  · unfold addNumberMatch
    cases hv : dget st.filters field
    case vStr s =>
      by_cases hs : s = ""
      · simp [hv, hs, pushMatchStage, dhas_ddel_self, isUndef, isEmptyStr]
      · rcases hn : parseJsNumber s with _ | n <;>
          simp [hv, hs, hn, jsToNumber, pushMatchStage, dhas_ddel_self,
            isUndef, isEmptyStr]
    case vArr l =>
      rcases hn : jsToNumber (.vArr l) with _ | n <;>
        simp [hv, hn, pushMatchStage, dhas_ddel_self, isUndef, isEmptyStr]
    all_goals
      simp [hv, jsToNumber, pushMatchStage, dhas_ddel_self, isUndef, isEmptyStr]
  · unfold addOrMatch
    cases hv : dget st.filters "or"
    case vArr l =>
      cases l <;> simp [hv, pushMatchStage, dhas_ddel_self]
    all_goals simp [hv]

/-! Section: C4: consumption of the cross-field gate keys -/

/-- C4 (counterexample): `fallWithinDateRange` with the gate key present but
not truthy (`"false"`) returns with the gate key still in the dictionary —
refuting that the gate key is always absent on return. -/
theorem gate_key_counterexample :
    dhas (fallWithinDateRange
        (mkBuilder [("range-within-date", .vStr "false")])
        "startDate" "endDate" 0).filters "range-within-date" = true :=
  rfl

/-- C4 (amended): `fallWithinDateRange` deletes the gate key exactly when the
flag was truthy (`true`/`'true'`), and `fallWithinTimeRange` exactly when
additionally the explicit time argument (if any) is valid; otherwise the
dictionary is untouched, so a present-but-falsy gate key remains. -/
theorem gate_key_consumption (st : BuilderState) (startField endField : String)
    (nowMs : Int) (timeStr : Option String) (nowTimeMs : Int) :
    ((fallWithinDateRange st startField endField nowMs).filters =
      (if isGateTrue (dget st.filters "range-within-date")
       then ddel st.filters "range-within-date" else st.filters)) ∧
    ((fallWithinTimeRange st startField endField timeStr nowTimeMs).filters =
      (if isGateTrue (dget st.filters "range-within-time") && timeArgValid timeStr
       then ddel st.filters "range-within-time" else st.filters)) := by
  constructor
  · unfold fallWithinDateRange
    by_cases h : isGateTrue (dget st.filters "range-within-date") <;>
      simp [h, pushMatchStage]
  · unfold fallWithinTimeRange
    by_cases h : isGateTrue (dget st.filters "range-within-time")
    · cases timeStr with
      | none => simp [h, timeArgValid, pushMatchStage]
      | some s =>
        rcases hp : parseTimeHMS s with _ | t <;>
          simp [h, hp, timeArgValid, pushMatchStage]
    · simp [h]

/-! Section: C5: silent no-op on absent / null / empty values -/

/-- C5 (counterexample): the bare number match reading `null` from the
dictionary emits the stage `{ age: 0 }` (JS `Number(null) = 0`) — refuting
that a null value never triggers emission. -/
theorem null_value_emits_counterexample :
    (addNumberMatch (mkBuilder [("age", .vNull)]) "age" none).matchStages =
      [fieldMatch "age" (.vNum 0)] :=
  rfl

/-- C5 (amended): every rule call that resolves its value from the
dictionary is a silent no-op (no stage appended) when the value is absent;
an empty-string value is likewise a no-op for the bare string, number and
boolean-value matches; a null value is a no-op for the bare string and date
matches but is coerced by the bare number match (emitting `field: 0`) and
the bare boolean-value match (emitting `field: false`); and an empty-string
value is wrapped into a singleton array by the `-in`/`-nin` matches, which
therefore do emit. -/
theorem silent_noop_amended :
    (∀ (op : Op) (st : BuilderState), readsValueFromDict op = true →
      (∀ k ∈ opReadKeys op, dget st.filters k = Value.vUndef) →
      (applyOp st op).matchStages = st.matchStages) ∧
    (∀ (st : BuilderState) (field : String), dget st.filters field = .vStr "" →
      (addStringMatch st field none).matchStages = st.matchStages ∧
      (addNumberMatch st field none).matchStages = st.matchStages ∧
      (addBooleanValueMatch st field none).matchStages = st.matchStages) ∧
    (∀ (st : BuilderState) (field : String), dget st.filters field = .vNull →
      (addStringMatch st field none).matchStages = st.matchStages ∧
      (addDateMatch st field none none).matchStages = st.matchStages ∧
      (addNumberMatch st field none).matchStages =
        st.matchStages ++ [fieldMatch field (.vNum 0)] ∧
      (addBooleanValueMatch st field none).matchStages =
        st.matchStages ++ [fieldMatch field (.vBool false)]) ∧
    (∀ (st : BuilderState) (field : String),
      dget st.filters (field ++ "-in") = .vStr "" →
      (addInMatch st field none).matchStages =
        st.matchStages ++ [fieldMatch field (.vObj [("$in", .vArr [.vStr ""])])]) ∧
    (∀ (st : BuilderState) (field : String),
      dget st.filters (field ++ "-nin") = .vStr "" →
      (addNotInMatch st field none).matchStages =
        st.matchStages ++ [fieldMatch field (.vObj [("$nin", .vArr [.vStr ""])])]) := by
  refine ⟨?_, ?_, ?_, ?_, ?_⟩
  · intro op st hr hk
    cases op with
    | opSetTimezone tz => simp [readsValueFromDict] at hr
    | opNotDeleted => simp [readsValueFromDict] at hr
    | opLookup c mst lf ff a u => simp [readsValueFromDict] at hr
    | opStringMatch fld v =>
      cases v with
      | none =>
        have h1 := hk fld (by simp [opReadKeys])
        simp [applyOp, addStringMatch, h1, isUndef]
      | some s => simp [readsValueFromDict] at hr
    | opNumberMatch fld v =>
      cases v with
      | none =>
        have h1 := hk fld (by simp [opReadKeys])
        simp [applyOp, addNumberMatch, h1, isUndef]
      | some n => simp [readsValueFromDict] at hr
    | opBooleanValueMatch fld v =>
      cases v with
      | none =>
        have h1 := hk fld (by simp [opReadKeys])
        simp [applyOp, addBooleanValueMatch, h1, isUndef]
      | some b => simp [readsValueFromDict] at hr
    | opDateMatch fld v fmt =>
      cases v with
      | none =>
        have h1 := hk fld (by simp [opReadKeys])
        simp [applyOp, addDateMatch, h1, isUndef]
      | some v => simp [readsValueFromDict] at hr
    | opDateRangeMatch fld =>
      have h1 := hk (fld ++ "-from") (by simp [opReadKeys])
      have h2 := hk (fld ++ "-to") (by simp [opReadKeys])
      simp [applyOp, addDateRangeMatch, h1, h2, isMissing, isUndef, isNullV,
        isEmptyStr]
    | opGreaterThanDateMatch fld =>
      have h1 := hk (fld ++ "-gtDate") (by simp [opReadKeys])
      simp [applyOp, addGreaterThanDateMatch, h1, isMissing, isUndef, isNullV,
        isEmptyStr]
    | opGreaterThanOrEqualDateMatch fld =>
      have h1 := hk (fld ++ "-gteDate") (by simp [opReadKeys])
      simp [applyOp, addGreaterThanOrEqualDateMatch, h1, isMissing, isUndef,
        isNullV, isEmptyStr]
    | opLessThanDateMatch fld =>
      have h1 := hk (fld ++ "-ltDate") (by simp [opReadKeys])
      simp [applyOp, addLessThanDateMatch, h1, isMissing, isUndef, isNullV,
        isEmptyStr]
    | opLessThanOrEqualDateMatch fld =>
      have h1 := hk (fld ++ "-lteDate") (by simp [opReadKeys])
      simp [applyOp, addLessThanOrEqualDateMatch, h1, isMissing, isUndef,
        isNullV, isEmptyStr]
    | opFieldExists fld b fk =>
      cases fk with
      | none => simp [readsValueFromDict] at hr
      | some k =>
        have h1 := hk (if k ≠ "" then k else fld ++ "-exists")
          (by simp [opReadKeys])
        simp only [ne_eq, ite_not] at h1
        simp [applyOp, addFieldExists, h1, isGateTrue, isUndef]
    | opRegexMatch fld o =>
      have h1 := hk fld (by simp [opReadKeys])
      simp [applyOp, addRegexMatch, h1, isMissing, isUndef, isNullV, isEmptyStr]
    | opInMatch fld sv =>
      cases sv with
      | none =>
        have h1 := hk (fld ++ "-in") (by simp [opReadKeys])
        simp [applyOp, addInMatch, h1, isUndef, isNullV]
      | some l => simp [readsValueFromDict] at hr
    | opInMatchWithObjectIds fld sv =>
      cases sv with
      | none =>
        have h1 := hk (fld ++ "-in") (by simp [opReadKeys])
        simp [applyOp, addInMatchWithObjectIds, h1, isUndef, isNullV]
      | some l => simp [readsValueFromDict] at hr
    | opObjectIdMatch fld =>
      have h1 := hk fld (by simp [opReadKeys])
      simp [applyOp, addObjectIdMatch, h1, isMissing, isUndef, isNullV,
        isEmptyStr]
    | opObjectIdsMatch fld =>
      have h1 := hk fld (by simp [opReadKeys])
      simp [applyOp, addObjectIdsMatch, h1, isUndef, isNullV]
    | opNotInMatch fld sv =>
      cases sv with
      | none =>
        have h1 := hk (fld ++ "-nin") (by simp [opReadKeys])
        simp [applyOp, addNotInMatch, h1, isUndef, isNullV]
      | some l => simp [readsValueFromDict] at hr
    | opArrayNotEmptyMatch fld =>
      have h1 := hk (fld ++ "-nt-empty") (by simp [opReadKeys])
      simp [applyOp, addArrayNotEmptyMatch, h1, isGateTrue]
    | opNullMatch fld =>
      have h1 := hk (fld ++ "-isnull") (by simp [opReadKeys])
      simp [applyOp, addNullMatch, h1, isGateTrue]
    | opNotNullMatch fld =>
      have h1 := hk (fld ++ "-notnull") (by simp [opReadKeys])
      simp [applyOp, addNotNullMatch, h1, isGateTrue]
    | opBooleanMatch fld =>
      have h1 := hk (fld ++ "-true") (by simp [opReadKeys])
      have h2 := hk (fld ++ "-false") (by simp [opReadKeys])
      simp [applyOp, addBooleanMatch, h1, h2, isGateTrue]
    | opExistsMatch fld =>
      have h1 := hk (fld ++ "-exists") (by simp [opReadKeys])
      simp [applyOp, addExistsMatch, h1, isGateTrue, isGateFalse]
    | opNotEqualMatch fld =>
      have h1 := hk (fld ++ "-not") (by simp [opReadKeys])
      simp [applyOp, addNotEqualMatch, h1, isMissing, isUndef, isNullV,
        isEmptyStr]
    | opRangeMatch fld =>
      have h1 := hk (fld ++ "-from") (by simp [opReadKeys])
      have h2 := hk (fld ++ "-to") (by simp [opReadKeys])
      simp [applyOp, addRangeMatch, h1, h2, isMissing, isUndef, isNullV,
        isEmptyStr]
    | opFallWithinDateRange sf ef n =>
      have h1 := hk "range-within-date" (by simp [opReadKeys])
      simp [applyOp, fallWithinDateRange, h1, isGateTrue]
    | opFallWithinTimeRange sf ef ts n =>
      have h1 := hk "range-within-time" (by simp [opReadKeys])
      simp [applyOp, fallWithinTimeRange, h1, isGateTrue]
    | opOrMatch =>
      have h1 := hk "or" (by simp [opReadKeys])
      simp [applyOp, addOrMatch, h1]
    | opOrMatchPrefixed p =>
      have h1 := hk (p ++ "-or") (by simp [opReadKeys])
      simp [applyOp, addOrMatchPrefixed, h1]
    | opAndMatch =>
      have h1 := hk "and" (by simp [opReadKeys])
      simp [applyOp, addAndMatch, h1]
    | opTimeRangeMatch f1 f2 =>
      have h1 := hk (f1 ++ "-time-from") (by simp [opReadKeys])
      have h2 := hk (f2 ++ "-time-to") (by simp [opReadKeys])
      simp [applyOp, addTimeRangeMatch, h1, h2, isMissing, isUndef, isNullV,
        isEmptyStr]
    | opFieldsDateRangeMatch sf ef =>
      have h1 := hk "range-within-date" (by simp [opReadKeys])
      simp [applyOp, addFieldsDateRangeMatch, h1, isGateTrue]
  · intro st field hv
    refine ⟨?_, ?_, ?_⟩ <;>
      simp [addStringMatch, addNumberMatch, addBooleanValueMatch, hv,
        isUndef, isEmptyStr]
  · intro st field hv
    refine ⟨?_, ?_, ?_, ?_⟩ <;>
      simp [addStringMatch, addDateMatch, addNumberMatch, addBooleanValueMatch,
        hv, isUndef, isEmptyStr, jsToNumber, truthy, pushMatchStage]
  · intro st field hv
    simp [addInMatch, hv, isUndef, isNullV, pushMatchStage]
  · intro st field hv
    simp [addNotInMatch, hv, isUndef, isNullV, pushMatchStage]

/-! Section: C6: explicit overrides and the dictionary -/

/-- C6 (counterexample): `addNotInMatch` with static values supplied deletes
the `category-nin` key even though the value was never read from the
dictionary — refuting that an override always leaves the key untouched. -/
theorem override_deletes_counterexample :
    dhas (addNotInMatch (mkBuilder [("category-nin", .vArr [.vStr "test"])])
      "category" (some [.vStr "x"])).filters "category-nin" = false :=
  rfl

/-- C6 (amended): supplying an explicit override leaves the whole dictionary
untouched for the string, number, boolean-value and `-in` matches, but
`addNotInMatch` deletes the `field-nin` key unconditionally, even when
static values are supplied. -/
theorem override_frame_amended (st : BuilderState) (field s : String) (n : Int)
    (b : Bool) (l : List Value) :
    (addStringMatch st field (some s)).filters = st.filters ∧
    (addNumberMatch st field (some n)).filters = st.filters ∧
    (addBooleanValueMatch st field (some b)).filters = st.filters ∧
    (addInMatch st field (some l)).filters = st.filters ∧
    (addInMatchWithObjectIds st field (some l)).filters = st.filters ∧
    (addNotInMatch st field (some l)).filters = ddel st.filters (field ++ "-nin") := by
  refine ⟨?_, rfl, rfl, rfl, ?_, rfl⟩
  · by_cases hs : s = "" <;>
      simp [addStringMatch, hs, isUndef, isEmptyStr, pushMatchStage]
  · by_cases hl : (l.filter isValidObjectId).length > 0 <;>
      simp [addInMatchWithObjectIds, hl, isUndef, isNullV, pushMatchStage]

/-- C5 (witness): the amended no-op contract at concrete inputs — the bare
string match reading the absent `status` key of a non-empty dictionary is a
no-op, and a null value makes the bare number match emit `{ age: 0 }`. -/
theorem silent_noop_amended_witness :
    readsValueFromDict (Op.opStringMatch "status" none) = true ∧
    (∀ k ∈ opReadKeys (Op.opStringMatch "status" none),
      dget (mkBuilder [("other", Value.vStr "x")]).filters k = Value.vUndef) ∧
    (applyOp (mkBuilder [("other", Value.vStr "x")])
        (Op.opStringMatch "status" none)).matchStages =
      (mkBuilder [("other", Value.vStr "x")]).matchStages ∧
    dget (mkBuilder [("age", Value.vNull)]).filters "age" = Value.vNull ∧
    (addNumberMatch (mkBuilder [("age", Value.vNull)]) "age" none).matchStages =
      (mkBuilder [("age", Value.vNull)]).matchStages ++
        [fieldMatch "age" (Value.vNum 0)] := by
  have habs : ∀ k ∈ opReadKeys (Op.opStringMatch "status" none),
      dget (mkBuilder [("other", Value.vStr "x")]).filters k = Value.vUndef := by
    intro k hkmem
    simp [opReadKeys] at hkmem
    subst hkmem
    rfl
  refine ⟨rfl, habs, ?_, rfl, ?_⟩
  · exact silent_noop_amended.1 (Op.opStringMatch "status" none)
      (mkBuilder [("other", Value.vStr "x")]) rfl habs
  · exact (silent_noop_amended.2.2.1 (mkBuilder [("age", Value.vNull)]) "age" rfl).2.2.1

/-! Section: C7: one-sided and empty ranges -/

theorem isMissing_false_of_tzParse (tz : String) (v : Value) (ms : Int)
    (h : tzParse tz v = some ms) : isMissing v = false := by
  cases v with
  | vStr s =>
    by_cases hs : s = ""
    · subst hs
      simp [tzParse, parseYMD] at h
    · simp [isMissing, isUndef, isNullV, isEmptyStr, hs]
  | _ => simp_all [tzParse, isMissing, isUndef, isNullV, isEmptyStr]

/-- C7: for the numeric range rule and the date range rule, a present and
valid `-from` boundary with no `-to` yields exactly one one-sided `$gte`
match stage, and with neither boundary present (numeric) or parsable (date)
no stage at all is emitted — never an empty match stage. -/
theorem range_one_sided (st : BuilderState) (field : String) (ms : Int) :
    (isMissing (dget st.filters (field ++ "-from")) = false →
      dget st.filters (field ++ "-to") = .vUndef →
      (addRangeMatch st field).matchStages = st.matchStages ++
        [fieldMatch field (.vObj [("$gte", dget st.filters (field ++ "-from"))])]) ∧
    (isMissing (dget st.filters (field ++ "-from")) = true →
      isMissing (dget st.filters (field ++ "-to")) = true →
      (addRangeMatch st field).matchStages = st.matchStages) ∧
    (tzParse st.tz (dget st.filters (field ++ "-from")) = some ms →
      dget st.filters (field ++ "-to") = .vUndef →
      (addDateRangeMatch st field).matchStages = st.matchStages ++
        [fieldMatch field (.vObj [("$gte", .vDate (startOfDay ms))])]) ∧
    (tzParse st.tz (dget st.filters (field ++ "-from")) = none →
      tzParse st.tz (dget st.filters (field ++ "-to")) = none →
      (addDateRangeMatch st field).matchStages = st.matchStages) := by
  refine ⟨?_, ?_, ?_, ?_⟩
  · intro h1 h2
    simp only [addRangeMatch, h1, h2]
    simp [pushMatchStage, isMissing, isUndef, isNullV, isEmptyStr]
  · intro h1 h2
    simp [addRangeMatch, h1, h2]
  · intro hp h2
    have hm := isMissing_false_of_tzParse st.tz _ ms hp
    simp only [addDateRangeMatch, hm, hp, h2]
    simp [pushMatchStage, isMissing, isUndef, isNullV, isEmptyStr]
  · intro hp1 hp2
    by_cases h1 : isMissing (dget st.filters (field ++ "-from")) <;>
      by_cases h2 : isMissing (dget st.filters (field ++ "-to")) <;>
        simp [addDateRangeMatch, h1, h2, hp1, hp2]

/-- C7 (witness): the range contract at concrete inputs — a numeric `-from`
only, a date `-from` only, and the two empty cases. -/
theorem range_one_sided_witness :
    isMissing (dget (mkBuilder [("price-from", Value.vNum 5)]).filters
      ("price" ++ "-from")) = false ∧
    dget (mkBuilder [("price-from", Value.vNum 5)]).filters
      ("price" ++ "-to") = Value.vUndef ∧
    (addRangeMatch (mkBuilder [("price-from", Value.vNum 5)]) "price").matchStages =
      [fieldMatch "price" (.vObj [("$gte", Value.vNum 5)])] ∧
    tzParse (mkBuilder [("createdAt-from", Value.vStr "2023-05-01")]).tz
      (dget (mkBuilder [("createdAt-from", Value.vStr "2023-05-01")]).filters
        ("createdAt" ++ "-from")) = some 1682899200000 ∧
    (addDateRangeMatch (mkBuilder [("createdAt-from", Value.vStr "2023-05-01")])
      "createdAt").matchStages =
      [fieldMatch "createdAt" (.vObj [("$gte", .vDate 1682899200000)])] ∧
    (addRangeMatch (mkBuilder []) "price").matchStages = [] ∧
    (addDateRangeMatch (mkBuilder []) "createdAt").matchStages = [] := by
  refine ⟨rfl, rfl, ?_, rfl, ?_, ?_, ?_⟩
  · exact (range_one_sided (mkBuilder [("price-from", Value.vNum 5)])
      "price" 0).1 rfl rfl
  · exact (range_one_sided (mkBuilder [("createdAt-from", Value.vStr "2023-05-01")])
      "createdAt" 1682899200000).2.2.1 rfl rfl
  · exact (range_one_sided (mkBuilder []) "price" 0).2.1 rfl rfl
  · exact (range_one_sided (mkBuilder []) "createdAt" 0).2.2.2 rfl rfl

/-! Section: C9: every emitted stage is a one-key `$match` or `$lookup` object -/

theorem all_wf_push (st : BuilderState) (v : Value)
    (h : st.matchStages.all isMatchOrLookupB = true)
    (hv : isMatchOrLookupB v = true) :
    ((pushMatchStage st v).matchStages).all isMatchOrLookupB = true := by
  simp [pushMatchStage, h, hv]

set_option maxHeartbeats 1000000 in
theorem applyOp_stages_wf (op : Op) (st : BuilderState)
    (h : st.matchStages.all isMatchOrLookupB = true) :
    ((applyOp st op).matchStages).all isMatchOrLookupB = true := by
  cases op <;>
    simp only [applyOp, setTimezone, addStringMatch, addNumberMatch,
      addBooleanValueMatch, addDateMatch, addDateRangeMatch,
      addGreaterThanDateMatch, addGreaterThanOrEqualDateMatch,
      addLessThanDateMatch, addLessThanOrEqualDateMatch, addFieldExists,
      addRegexMatch, addInMatch, addInMatchWithObjectIds, addObjectIdMatch,
      addObjectIdsMatch, addNotInMatch, addArrayNotEmptyMatch, addNotDeleted,
      addNullMatch, addNotNullMatch, addBooleanMatch, addExistsMatch,
      addNotEqualMatch, addRangeMatch, fallWithinDateRange,
      fallWithinTimeRange, addOrMatch, addOrMatchPrefixed, addAndMatch,
      addTimeRangeMatch, addFieldsDateRangeMatch,
      addLookupFromOtherCollection] <;>
    (repeat' split) <;>
    first
      | exact h
      | exact all_wf_push _ _ h rfl

theorem runOps_stages_wf (ops : List Op) (st : BuilderState)
    (h : st.matchStages.all isMatchOrLookupB = true) :
    ((runOps st ops).matchStages).all isMatchOrLookupB = true := by
  induction ops generalizing st with
  | nil => exact h
  | cons op rest ih => exact ih _ (applyOp_stages_wf op st h)

/-- C9: for every filter dictionary and every sequence of rule calls, every
element of the array returned by `build()` is an object with exactly one
top-level key, `$match` or `$lookup` — no operation (nor the default sweep)
emits a stage of any other shape. -/
theorem build_stages_match_or_lookup (filters : Dict) (ops : List Op) :
    ((build (runOps (mkBuilder filters) ops)).matchStages).all
      isMatchOrLookupB = true := by
  have h := runOps_stages_wf ops (mkBuilder filters) rfl
  have hmap : ∀ (l : List (String × Value)),
      (l.map (fun kv => fieldMatch kv.1 kv.2)).all isMatchOrLookupB = true := by
    intro l
    induction l with
    | nil => rfl
    | cons kv rest ih =>
      simp only [List.map_cons, List.all_cons, ih, Bool.and_true]
      rfl
  simp [build, sweepList_eq, h, hmap]

end MongooseBuilder
